import Mathlib

/-!
Verification development for plot_gptp.py, a script that parses OMNeT++
vector result files, filters rows by metric name, and renders one chart
per (run, metric) pair.

The script is embedded shallowly: each Python construct the claims depend
on is translated into an executable Lean definition.  Machine floats are
modelled as exact rationals (the script only parses decimal tokens and
never does arithmetic on them), file contents are lists of lines, and
exceptions (ValueError from float, SystemExit from the orchestration,
ValueError from pd.concat on an empty iterable) are modelled with Except.
-/

/-- Python whitespace for str.split with no argument: space, tab, newline,
vertical tab, form feed, carriage return.  (Unicode whitespace beyond
ASCII is not modelled; the vector file format is ASCII.) -/
def pyIsSpace (c : Char) : Bool :=
  c = ' ' || c = '\t' || c = '\n' || c = '\x0b' || c = '\x0c' || c = '\r'

/-- Helper for pySplit: walks the characters, accumulating the current
word in reverse.  Structural recursion so that the kernel can evaluate it. -/
def pySplitAux : List Char → List Char → List String
  | [], acc => if acc.isEmpty then [] else [String.mk acc.reverse]
  | c :: cs, acc =>
    if pyIsSpace c then
      if acc.isEmpty then pySplitAux cs []
      else String.mk acc.reverse :: pySplitAux cs []
    else pySplitAux cs (c :: acc)

/-- Model of Python str.split() with no argument: split on runs of
whitespace, discarding empty strings and leading/trailing whitespace. -/
def pySplit (s : String) : List String :=
  pySplitAux s.data []

/-- Model of line.startswith("vector"): character-level test that the
line begins with the six characters of the word vector. -/
def startsWithVector (line : String) : Bool :=
  List.isPrefixOf "vector".data line.data

/-- Model of the Python guard (line and line[0].isdigit()): the line is
nonempty and its first character is a decimal digit.  (Python isdigit
also accepts some non-ASCII digit characters; the vector format is
ASCII, so only ASCII digits are modelled.) -/
def firstCharIsDigit (line : String) : Bool :=
  match line.data with
  | [] => false
  | c :: _ => c.isDigit

/-- Numeric value of a list of ASCII digit characters. -/
def digitsVal (ds : List Char) : Nat :=
  ds.foldl (fun a c => 10 * a + (c.toNat - 48)) 0

/-- Strip an optional leading sign; returns (isNegative, rest). -/
def splitSign : List Char → Bool × List Char
  | '-' :: cs => (true, cs)
  | '+' :: cs => (false, cs)
  | cs => (false, cs)

/-- Model of Python float() on a whitespace-free token, as an exact
rational: optional sign, decimal digits with optional fractional part,
optional exponent part.  Returns none exactly when Python float raises
ValueError on such a token.  (Special forms inf and nan, underscore
digit separators, and surrounding whitespace are outside the modelled
fragment; the tokens this script feeds to float are plain decimals.) -/
def pyFloatChars (cs : List Char) : Option Rat :=
  let p := splitSign cs
  let ds := p.2.takeWhile Char.isDigit
  let cs2 := p.2.drop ds.length
  let hasDot : Bool := cs2.head? = some '.'
  let fs := if hasDot then (cs2.drop 1).takeWhile Char.isDigit else []
  let cs3 := if hasDot then (cs2.drop 1).drop fs.length else cs2
  if ds.isEmpty && fs.isEmpty then none
  else
    let mant : Rat := (digitsVal ds : Rat) + (digitsVal fs : Rat) / (10 : Rat) ^ fs.length
    let signed : Rat := if p.1 then -mant else mant
    match cs3 with
    | [] => some signed
    | e :: cs4 =>
      if e = 'e' || e = 'E' then
        let q := splitSign cs4
        let es := q.2.takeWhile Char.isDigit
        if es.isEmpty || !(q.2.drop es.length).isEmpty then none
        else some (if q.1 then signed / (10 : Rat) ^ digitsVal es
                   else signed * (10 : Rat) ^ digitsVal es)
      else none

/-- Model of Python float() on a string token. -/
def pyFloat (s : String) : Option Rat :=
  pyFloatChars s.data

/-- The metadata stored in id_meta for one vector identifier:
module, metric and run name (parse_vec stores all three). -/
structure Meta where
  module : String
  metric : String
  run : String
deriving DecidableEq, Repr

/-- One row of the resulting DataFrame: time, value, and the metadata
fields spread from the id_meta entry. -/
structure Row where
  time : Rat
  value : Rat
  run : String
  module : String
  metric : String
deriving DecidableEq, Repr

/-- The state threaded through the line loop of parse_vec: the id_meta
dict and the accumulated rows.  The dict is modelled extensionally as a
lookup function (parse_vec only ever gets and sets single keys, so
insertion order is irrelevant). -/
structure ParseState where
  id_meta : String → Option Meta
  rows : List Row

/-- Model of dict assignment d[k] = v: later lookups of k see v, all
other keys are unchanged (store or overwrite). -/
def dictInsert (d : String → Option Meta) (k : String) (v : Meta) :
    String → Option Meta :=
  fun k2 => if k2 = k then some v else d k2

/-- The ValueError message float raises on a bad token. -/
def floatErrMsg (tok : String) : String :=
  "ValueError: could not convert string to float: " ++ tok

/-- One iteration of the line loop in parse_vec.  Header branch: a line
starting with the characters of vector with at least 4 fields stores or
overwrites id_meta for the 2nd field.  Data branch: a line whose first
character is a digit with at least 4 fields emits a row when its
identifier is known, converting the 3rd and 4th fields with float
(which raises, modelled as Except.error, on a non-numeric token);
unknown identifiers are dropped silently.  All other lines are ignored. -/
def processLine (run_name : String) (st : ParseState) (line : String) :
    Except String ParseState :=
  if startsWithVector line then
    match pySplit line with
    | _ :: vec_id :: module :: metric :: _ =>
      Except.ok ⟨dictInsert st.id_meta vec_id ⟨module, metric, run_name⟩, st.rows⟩
    | _ => Except.ok st
  else if firstCharIsDigit line then
    match pySplit line with
    | vec_id :: _ :: sim_time :: value :: _ =>
      match st.id_meta vec_id with
      | some m =>
        match pyFloat sim_time with
        | none => Except.error (floatErrMsg sim_time)
        | some t =>
          match pyFloat value with
          | none => Except.error (floatErrMsg value)
          | some v =>
            Except.ok ⟨st.id_meta, st.rows ++ [⟨t, v, m.run, m.module, m.metric⟩]⟩
      | none => Except.ok st
    | _ => Except.ok st
  else Except.ok st

/-- The state at the start of parse_vec: empty dict, no rows. -/
def initState : ParseState := ⟨fun _ => none, []⟩

/-- Model of parse_vec: fold the line loop over the lines of the file
(run_name is the file stem, computed by the caller), returning the
accumulated rows, or the first uncaught float ValueError. -/
def parse_vec (run_name : String) (lines : List String) :
    Except String (List Row) :=
  Except.map ParseState.rows (List.foldlM (processLine run_name) initState lines)

/-- One token of the compiled regular expression fragment the script
uses: a literal character or the dot wildcard. -/
inductive RTok where
  | anyTok : RTok
  | litTok : Char → RTok
deriving DecidableEq, Repr

/-- Model of re.compile with re.I restricted to the fragment of regex
that the metric arguments use: literal characters, the dot wildcard,
and the postfix star.  IGNORECASE is folded in by lowercasing literal
characters here and input characters in tokMatch.  Each compiled token
carries a flag telling whether it is starred. -/
def reCompile : List Char → List (RTok × Bool)
  | [] => []
  | '.' :: '*' :: rest => (RTok.anyTok, true) :: reCompile rest
  | '.' :: rest => (RTok.anyTok, false) :: reCompile rest
  | c :: '*' :: rest => (RTok.litTok c.toLower, true) :: reCompile rest
  | c :: rest => (RTok.litTok c.toLower, false) :: reCompile rest

/-- Whether one regex token matches one character (Python dot does not
match a newline; literals compare case-insensitively). -/
def tokMatch : RTok → Char → Bool
  | RTok.anyTok, c => c ≠ '\n'
  | RTok.litTok l, c => c.toLower = l

/-- The suffixes reachable from cs by consuming a (possibly empty)
run of characters that all match the starred token t. -/
def starSuffixes (t : RTok) : List Char → List (List Char)
  | [] => [[]]
  | c :: cs => (c :: cs) :: (if tokMatch t c then starSuffixes t cs else [])

/-- Whether the compiled token list matches some prefix of the
character list (the semantics of an anchored regex match that may
leave trailing characters, which is what re.search needs at each
start position). -/
def reAccept : List (RTok × Bool) → List Char → Bool
  | [], _ => true
  | (_, false) :: _, [] => false
  | (t, false) :: ps, c :: cs => tokMatch t c && reAccept ps cs
  | (t, true) :: ps, cs => (starSuffixes t cs).any (reAccept ps)

/-- Model of p.search(s) for a compiled pattern: the pattern matches
starting at some position of the string. -/
def reSearch (p : List (RTok × Bool)) (s : String) : Bool :=
  s.data.tails.any (reAccept p)

/-- The row predicate of the mask: some compiled pattern matches the
metric name of the row. -/
def metricMatches (pats : List (List (RTok × Bool))) (m : String) : Bool :=
  pats.any (fun p => reSearch p m)

/-- Model of df_all[mask]: keep the rows whose metric matches some
pattern. -/
def filterMetrics (pats : List (List (RTok × Bool))) (rows : List Row) : List Row :=
  rows.filter (fun row => metricMatches pats row.metric)

/-- Model of the Python slice l[:k] for an Int bound: a nonnegative
bound keeps the first k elements, a negative bound drops the last -k
(clamped at zero). -/
def pySliceTo (k : Int) (l : List α) : List α :=
  if 0 ≤ k then l.take k.toNat else l.take ((l.length : Int) + k).toNat

/-- Model of the max-runs cap: the slice is applied only when
args.max_runs is truthy, i.e. present and nonzero (the Python guard is
a plain if on the value, so 0 is falsy and disables the cap). -/
def capMaxRuns (maxRuns : Option Int) (files : List α) : List α :=
  match maxRuns with
  | none => files
  | some k => if k = 0 then files else pySliceTo k files

/-- Model of pd.concat over the per-file tables: pandas raises
ValueError on an empty iterable, otherwise concatenates. -/
def pdConcat (dfs : List (List Row)) : Except String (List Row) :=
  match dfs with
  | [] => Except.error "ValueError: No objects to concatenate"
  | _ => Except.ok dfs.flatten

/-- Parse every capped input file in order, propagating the first
uncaught exception (the generator feeding pd.concat is consumed
file by file, so a ValueError in parse_vec aborts the whole run). -/
def parseAll : List (String × List String) → Except String (List (List Row))
  | [] => Except.ok []
  | f :: fs =>
    match parse_vec f.1 f.2 with
    | Except.error e => Except.error e
    | Except.ok df => Except.map (fun dfs => df :: dfs) (parseAll fs)

/-- The SystemExit message when no file produced any row. -/
def msgNoData : String :=
  "Nenhum dado valido encontrado nos .vec - verifique formato/caminho."

/-- The SystemExit message when no row matched the metric patterns
(the Python f-string interpolates the list of patterns; the exact list
rendering is abbreviated to a comma-separated join). -/
def msgNoMatch (metrics : List String) : String :=
  "Nenhuma amostra bateu com as expressoes: " ++ String.intercalate ", " metrics

/-- Model of metric.replace with a colon replaced by an underscore:
for a single-character pattern, str.replace is a character map. -/
def pyReplaceColon (s : String) : String :=
  String.mk (s.data.map (fun c => if c = ':' then '_' else c))

/-- The file name the savefig loop uses for one (run, metric) group. -/
def chartFileName (run metric : String) : String :=
  run ++ "_" ++ pyReplaceColon metric ++ ".png"

/-- The (run, metric) keys of df.groupby: each distinct pair once.
(pandas iterates the groups in sorted key order; no claim depends on
the order, so first-occurrence order is used here.) -/
def runMetricPairs (df : List Row) : List (String × String) :=
  (df.map (fun r => (r.run, r.metric))).dedup

/-- The paths passed to fig.savefig over the whole loop: one per
(run, metric) group, inside the output directory. -/
def savefigPaths (outdir : String) (df : List Row) : List String :=
  (runMetricPairs df).map (fun p => outdir ++ "/" ++ chartFileName p.1 p.2)

/-- The command-line inputs the orchestration depends on. -/
structure Config where
  metrics : List String
  maxRuns : Option Int

/-- Model of the orchestration after argument parsing: cap the sorted
file list, parse every file (a float ValueError propagates), concat
(ValueError on zero files), exit if the table is empty, filter by the
compiled patterns, exit if nothing matched, and otherwise produce the
savefig paths of the chart loop.  Each file is given as (stem, lines). -/
def runMain (cfg : Config) (outdir : String)
    (files : List (String × List String)) : Except String (List String) :=
  let vec_files := capMaxRuns cfg.maxRuns files
  match parseAll vec_files with
  | Except.error e => Except.error e
  | Except.ok dfs =>
    match pdConcat dfs with
    | Except.error e => Except.error e
    | Except.ok df_all =>
      if df_all.isEmpty then Except.error msgNoData
      else
        let pats := cfg.metrics.map (fun e => reCompile e.data)
        let df := filterMetrics pats df_all
        if df.isEmpty then Except.error (msgNoMatch cfg.metrics)
        else Except.ok (savefigPaths outdir df)

/-! ## Helper lemmas -/

theorem except_ok_bind {α β : Type} (x : α) (k : α → Except String β) :
    (Except.ok x >>= k) = k x := rfl

theorem except_error_bind {α β : Type} (e : String) (k : α → Except String β) :
    ((Except.error e : Except String α) >>= k) = Except.error e := rfl

theorem except_map_ok {α β : Type} (f : α → β) (x : α) :
    Except.map f (Except.ok x : Except String α) = Except.ok (f x) := rfl

theorem except_map_error {α β : Type} (f : α → β) (e : String) :
    Except.map f (Except.error e : Except String α) = Except.error e := rfl

theorem vector_data_eq : "vector".data = ['v', 'e', 'c', 't', 'o', 'r'] := rfl

/-- A line whose first character is a digit does not start with the
word vector, so the data branch of processLine is the one that runs. -/
theorem startsWithVector_eq_false_of_digit (line : String)
    (h : firstCharIsDigit line = true) : startsWithVector line = false := by
  unfold firstCharIsDigit at h
  unfold startsWithVector
  cases hl : line.data with
  | nil => rw [hl] at h; cases h
  | cons c cs =>
    rw [hl] at h
    rw [vector_data_eq]
    show (('v' == c) && List.isPrefixOf ['e', 'c', 't', 'o', 'r'] cs) = false
    have h2 : c.isDigit = true := h
    cases hvc : ('v' == c) with
    | false => simp
    | true =>
      exfalso
      have hc : 'v' = c := beq_iff_eq.mp hvc
      rw [← hc] at h2
      exact absurd h2 (by decide)

/-- Evaluation of processLine on a well-formed header line. -/
theorem processLine_header (r : String) (st : ParseState)
    (line w id module metric : String) (rest : List String)
    (hv : startsWithVector line = true)
    (hs : pySplit line = w :: id :: module :: metric :: rest) :
    processLine r st line =
      Except.ok ⟨dictInsert st.id_meta id ⟨module, metric, r⟩, st.rows⟩ := by
  unfold processLine
  rw [if_pos hv, hs]

/-- Evaluation of processLine on a header line with fewer than 4
fields: the state is unchanged and no error is raised. -/
theorem processLine_header_short (r : String) (st : ParseState) (line : String)
    (hv : startsWithVector line = true)
    (hs : (pySplit line).length < 4) :
    processLine r st line = Except.ok st := by
  unfold processLine
  rw [if_pos hv]
  rcases h0 : pySplit line with _ | ⟨a, _ | ⟨b, _ | ⟨c, _ | ⟨d, t⟩⟩⟩⟩
  · rfl
  · rfl
  · rfl
  · rfl
  · rw [h0] at hs; simp at hs; omega

/-- Evaluation of processLine on a data line whose identifier has a
mapping entry and whose time and value fields parse. -/
theorem processLine_data_known (r : String) (st : ParseState)
    (line f0 f1 f2 f3 : String) (rest : List String) (m : Meta) (t v : Rat)
    (hd : firstCharIsDigit line = true)
    (hs : pySplit line = f0 :: f1 :: f2 :: f3 :: rest)
    (hm : st.id_meta f0 = some m)
    (ht : pyFloat f2 = some t)
    (hv2 : pyFloat f3 = some v) :
    processLine r st line =
      Except.ok ⟨st.id_meta, st.rows ++ [⟨t, v, m.run, m.module, m.metric⟩]⟩ := by
  have hnv := startsWithVector_eq_false_of_digit line hd
  simp [processLine, hnv, hd, hs, hm, ht, hv2]

/-- Evaluation of processLine on a data line whose identifier has no
mapping entry: the state is unchanged and no error is raised. -/
theorem processLine_data_unknown (r : String) (st : ParseState)
    (line f0 f1 f2 f3 : String) (rest : List String)
    (hd : firstCharIsDigit line = true)
    (hs : pySplit line = f0 :: f1 :: f2 :: f3 :: rest)
    (hm : st.id_meta f0 = none) :
    processLine r st line = Except.ok st := by
  have hnv := startsWithVector_eq_false_of_digit line hd
  simp [processLine, hnv, hd, hs, hm]

/-- Evaluation of processLine on a data line whose identifier has a
mapping entry but whose time or value field does not parse as a float:
the ValueError propagates. -/
theorem processLine_data_badfloat (r : String) (st : ParseState)
    (line f0 f1 f2 f3 : String) (rest : List String) (m : Meta)
    (hd : firstCharIsDigit line = true)
    (hs : pySplit line = f0 :: f1 :: f2 :: f3 :: rest)
    (hm : st.id_meta f0 = some m)
    (hbad : pyFloat f2 = none ∨ pyFloat f3 = none) :
    processLine r st line = Except.error (floatErrMsg f2) ∨
    processLine r st line = Except.error (floatErrMsg f3) := by
  have hnv := startsWithVector_eq_false_of_digit line hd
  rcases h2 : pyFloat f2 with _ | t
  · left; simp [processLine, hnv, hd, hs, hm, h2]
  · rcases h3 : pyFloat f3 with _ | v
    · right; simp [processLine, hnv, hd, hs, hm, h2, h3]
    · exfalso
      rcases hbad with hb | hb
      · rw [h2] at hb; cases hb
      · rw [h3] at hb; cases hb

/-! ## Claim theorems -/

/-- C1: for a file whose contents are the header line
vector 1 modA offsetFromGm ETV followed by the data line 1 0 0.5 12.3,
parse_vec returns exactly one row with time 0.5, value 12.3, run equal
to the file stem, module modA and metric offsetFromGm. -/
theorem C1_single_header_single_row (r : String) :
    parse_vec r ["vector 1 modA offsetFromGm ETV", "1 0 0.5 12.3"] =
      Except.ok [⟨0.5, 12.3, r, "modA", "offsetFromGm"⟩] := by
  have h1 : (0 : Rat) + (5 : Rat) / (10 : Rat) ^ 1 = 0.5 := by norm_num
  have h2 : (12 : Rat) + (3 : Rat) / (10 : Rat) ^ 1 = 12.3 := by norm_num
  calc parse_vec r ["vector 1 modA offsetFromGm ETV", "1 0 0.5 12.3"]
      = Except.ok [⟨(0 : Rat) + (5 : Rat) / (10 : Rat) ^ 1,
          (12 : Rat) + (3 : Rat) / (10 : Rat) ^ 1, r, "modA", "offsetFromGm"⟩] := rfl
    _ = Except.ok [⟨0.5, 12.3, r, "modA", "offsetFromGm"⟩] := by rw [h1, h2]

/-- C1 witness: the theorem evaluated at a concrete run name. -/
theorem C1_witness :
    parse_vec "run01" ["vector 1 modA offsetFromGm ETV", "1 0 0.5 12.3"] =
      Except.ok [⟨0.5, 12.3, "run01", "modA", "offsetFromGm"⟩] :=
  C1_single_header_single_row "run01"

/-- C2 counterexample: a data line (first character a digit, 4 fields)
whose 3rd field does not parse as a float, but whose identifier has no
mapping entry, is skipped silently: parse_vec returns ok with no rows
instead of raising, because float is only reached when the identifier
lookup succeeds. -/
theorem C2_counterexample :
    firstCharIsDigit "1 0 abc 2.0" = true ∧
    pySplit "1 0 abc 2.0" = ["1", "0", "abc", "2.0"] ∧
    pyFloat "abc" = none ∧
    parse_vec "run01" ["1 0 abc 2.0"] = Except.ok [] :=
  ⟨rfl, rfl, rfl, rfl⟩

/-- C2 (amended): for every data line whose identifier has a mapping
entry at the moment the line is read and whose 3rd (time) or 4th
(value) field does not parse as a float, the float ValueError
propagates out of parse_vec uncaught: the whole run on any file
containing such a line after such a prefix is an error. -/
theorem C2_bad_numeric_field_crashes (r : String) (pre post : List String)
    (st : ParseState) (line f0 f1 f2 f3 : String) (rest : List String) (m : Meta)
    (hpre : List.foldlM (processLine r) initState pre = Except.ok st)
    (hd : firstCharIsDigit line = true)
    (hs : pySplit line = f0 :: f1 :: f2 :: f3 :: rest)
    (hm : st.id_meta f0 = some m)
    (hbad : pyFloat f2 = none ∨ pyFloat f3 = none) :
    ∃ e, parse_vec r (pre ++ line :: post) = Except.error e := by
  have hstep := processLine_data_badfloat r st line f0 f1 f2 f3 rest m hd hs hm hbad
  unfold parse_vec
  rw [List.foldlM_append, hpre, except_ok_bind, List.foldlM_cons]
  rcases hstep with h | h
  · exact ⟨floatErrMsg f2, by rw [h, except_error_bind, except_map_error]⟩
  · exact ⟨floatErrMsg f3, by rw [h, except_error_bind, except_map_error]⟩

/-- C2 witness: a file with a resolved header whose data line has a
non-numeric time field makes parse_vec fail. -/
theorem C2_witness :
    ∃ e, parse_vec "r0" (["vector 7 modA met ETV"] ++ "7 0 abc 1" :: []) =
      Except.error e :=
  C2_bad_numeric_field_crashes "r0" ["vector 7 modA met ETV"] []
    ⟨dictInsert initState.id_meta "7" ⟨"modA", "met", "r0"⟩, []⟩
    "7 0 abc 1" "7" "0" "abc" "1" [] ⟨"modA", "met", "r0"⟩
    rfl rfl rfl rfl (Or.inl rfl)

/-- C4: a data line whose identifier has no mapping entry at the
moment it is read is silently discarded: the parse state is unchanged
and no error is raised, and the whole file parses exactly as if the
line were absent. -/
theorem C4_unknown_id_dropped (r : String) (st : ParseState)
    (line f0 f1 f2 f3 : String) (rest : List String)
    (hd : firstCharIsDigit line = true)
    (hs : pySplit line = f0 :: f1 :: f2 :: f3 :: rest)
    (hm : st.id_meta f0 = none) :
    processLine r st line = Except.ok st ∧
    ∀ pre post : List String,
      List.foldlM (processLine r) initState pre = Except.ok st →
      parse_vec r (pre ++ line :: post) = parse_vec r (pre ++ post) := by
  have h1 := processLine_data_unknown r st line f0 f1 f2 f3 rest hd hs hm
  refine ⟨h1, fun pre post hpre => ?_⟩
  unfold parse_vec
  rw [List.foldlM_append, List.foldlM_append, hpre, except_ok_bind, except_ok_bind,
    List.foldlM_cons, h1, except_ok_bind]

/-- C4 witness: a data line with an unknown identifier at the start of
a file leaves the state unchanged and produces no row and no error. -/
theorem C4_witness :
    processLine "r0" initState "9 0 1 2" = Except.ok initState ∧
    parse_vec "r0" ([] ++ "9 0 1 2" :: []) = parse_vec "r0" ([] ++ []) :=
  ⟨(C4_unknown_id_dropped "r0" initState "9 0 1 2" "9" "0" "1" "2" [] rfl rfl rfl).1,
   (C4_unknown_id_dropped "r0" initState "9 0 1 2" "9" "0" "1" "2" [] rfl rfl rfl).2
     [] [] rfl⟩

/-- C5: a header line with fewer than 4 whitespace-separated fields is
skipped without error and creates no mapping entry: the parse state is
unchanged for any state, and a file starting with such a line parses
exactly like the file without it, so data lines whose identifier was
only declared there produce zero rows. -/
theorem C5_malformed_header_ignored (r line : String)
    (hv : startsWithVector line = true)
    (hlen : (pySplit line).length < 4) :
    (∀ st, processLine r st line = Except.ok st) ∧
    ∀ rest, parse_vec r (line :: rest) = parse_vec r rest := by
  have h1 : ∀ st, processLine r st line = Except.ok st :=
    fun st => processLine_header_short r st line hv hlen
  refine ⟨h1, fun rest => ?_⟩
  unfold parse_vec
  rw [List.foldlM_cons, h1 initState, except_ok_bind]

/-- C5 witness: the malformed header vector 9 is skipped and the data
line for identifier 9 then yields no row. -/
theorem C5_witness :
    (∀ st, processLine "r0" st "vector 9" = Except.ok st) ∧
    parse_vec "r0" ["vector 9", "9 0 1 2"] = parse_vec "r0" ["9 0 1 2"] :=
  ⟨(C5_malformed_header_ignored "r0" "vector 9" rfl (by decide)).1,
   (C5_malformed_header_ignored "r0" "vector 9" rfl (by decide)).2 ["9 0 1 2"]⟩

/-- C6: a well-formed header line stores or overwrites the mapping
entry of its 2nd field with module the 3rd field and metric the 4th:
the updated dict answers the new metadata for that identifier and is
unchanged elsewhere; concretely, after two headers declaring the same
identifier, a data line resolves to the second header module and
metric. -/
theorem C6_header_stores_or_overwrites (r : String) (st : ParseState)
    (line w id module metric : String) (rest : List String)
    (hv : startsWithVector line = true)
    (hs : pySplit line = w :: id :: module :: metric :: rest) :
    processLine r st line =
      Except.ok ⟨dictInsert st.id_meta id ⟨module, metric, r⟩, st.rows⟩ ∧
    (∀ k, dictInsert st.id_meta id ⟨module, metric, r⟩ k =
      if k = id then some ⟨module, metric, r⟩ else st.id_meta k) ∧
    parse_vec "r0" ["vector 1 modA met1 ETV", "vector 1 modB met2 ETV", "1 0 3 4"] =
      Except.ok [⟨3, 4, "r0", "modB", "met2"⟩] := by
  refine ⟨processLine_header r st line w id module metric rest hv hs,
    fun k => rfl, ?_⟩
  have h1 : (3 : Rat) + (0 : Rat) / (10 : Rat) ^ 0 = 3 := by norm_num
  have h2 : (4 : Rat) + (0 : Rat) / (10 : Rat) ^ 0 = 4 := by norm_num
  calc parse_vec "r0" ["vector 1 modA met1 ETV", "vector 1 modB met2 ETV", "1 0 3 4"]
      = Except.ok [⟨(3 : Rat) + (0 : Rat) / (10 : Rat) ^ 0,
          (4 : Rat) + (0 : Rat) / (10 : Rat) ^ 0, "r0", "modB", "met2"⟩] := rfl
    _ = Except.ok [⟨3, 4, "r0", "modB", "met2"⟩] := by rw [h1, h2]

/-- C6 witness: a concrete header line stores its metadata entry. -/
theorem C6_witness :
    processLine "ra" initState "vector 5 modZ mz ETV" =
      Except.ok ⟨dictInsert initState.id_meta "5" ⟨"modZ", "mz", "ra"⟩,
        initState.rows⟩ :=
  (C6_header_stores_or_overwrites "ra" initState "vector 5 modZ mz ETV"
    "vector" "5" "modZ" "mz" ["ETV"] rfl rfl).1

/-- C10: header detection is by character position, not by whole first
token: every line whose first six characters spell vector runs the
header branch (which never emits a row and never errors), and in
particular the line vectors 1 modA m ETV, whose first token is the
longer word vectors, creates the mapping entry for identifier 1. -/
theorem C10_vector_prefix_detection :
    (∀ (r : String) (st : ParseState) (line : String),
      startsWithVector line = true →
      ∃ st2, processLine r st line = Except.ok st2 ∧ st2.rows = st.rows) ∧
    (∀ (r : String) (st : ParseState),
      processLine r st "vectors 1 modA m ETV" =
        Except.ok ⟨dictInsert st.id_meta "1" ⟨"modA", "m", r⟩, st.rows⟩) := by
  constructor
  · intro r st line hv
    unfold processLine
    rw [if_pos hv]
    rcases h0 : pySplit line with _ | ⟨a, _ | ⟨b, _ | ⟨c, _ | ⟨d, t⟩⟩⟩⟩
    · exact ⟨st, rfl, rfl⟩
    · exact ⟨st, rfl, rfl⟩
    · exact ⟨st, rfl, rfl⟩
    · exact ⟨st, rfl, rfl⟩
    · exact ⟨⟨dictInsert st.id_meta b ⟨c, d, r⟩, st.rows⟩, rfl, rfl⟩
  · intro r st
    exact processLine_header r st "vectors 1 modA m ETV"
      "vectors" "1" "modA" "m" ["ETV"] rfl rfl

/-- C10 witness: the header branch runs on the line vectors 1 modA m
ETV without emitting a row. -/
theorem C10_witness :
    ∃ st2, processLine "rb" initState "vectors 1 modA m ETV" = Except.ok st2 ∧
      st2.rows = initState.rows :=
  C10_vector_prefix_detection.1 "rb" initState "vectors 1 modA m ETV" rfl

/-- C7: metric filtering keeps exactly the rows whose metric is
matched, case-insensitively and anywhere in the string, by at least
one pattern; the pattern rateRatio dot star matches rateRatioMean and
does not match offsetFromGm, the same pattern in upper case still
matches, and a pattern can match in the middle of the metric. -/
theorem C7_metric_filtering :
    (∀ (pats : List (List (RTok × Bool))) (rows : List Row) (row : Row),
      row ∈ filterMetrics pats rows ↔
        row ∈ rows ∧ ∃ p ∈ pats, reSearch p row.metric = true) ∧
    reSearch (reCompile "rateRatio.*".data) "rateRatioMean" = true ∧
    reSearch (reCompile "rateRatio.*".data) "offsetFromGm" = false ∧
    reSearch (reCompile "RATERATIO.*".data) "rateRatioMean" = true ∧
    reSearch (reCompile "fromgm".data) "offsetFromGm" = true := by
  refine ⟨?_, rfl, rfl, rfl, rfl⟩
  intro pats rows row
  simp [filterMetrics, metricMatches, List.mem_filter, List.any_eq_true]

/-- C7 witness: the theorem applied to concrete patterns and rows. -/
theorem C7_witness :
    reSearch (reCompile "rateRatio.*".data) "rateRatioMean" = true ∧
    reSearch (reCompile "rateRatio.*".data) "offsetFromGm" = false :=
  ⟨C7_metric_filtering.2.1, C7_metric_filtering.2.2.1⟩

/-- C8 counterexample: with max-runs 0, the Python truthiness guard
disables the cap, so both of the two files are processed, which is
more than 0: the claim fails for the integer 0. -/
theorem C8_counterexample :
    capMaxRuns (some 0) ([("a", []), ("b", [])] : List (String × List String)) =
      [("a", []), ("b", [])] ∧
    ¬ (((capMaxRuns (some 0)
        ([("a", []), ("b", [])] : List (String × List String))).length : Int) ≤ 0) :=
  ⟨rfl, by decide⟩

/-- C8 (amended): for every positive integer given as max-runs, the
file list is capped to its first n elements, so at most n input files
are processed. -/
theorem C8_positive_cap (n : Int) (hn : 0 < n)
    (files : List (String × List String)) :
    capMaxRuns (some n) files = files.take n.toNat ∧
    ((capMaxRuns (some n) files).length : Int) ≤ n := by
  have hne : n ≠ 0 := by omega
  have h0 : (0 : Int) ≤ n := le_of_lt hn
  have heq : capMaxRuns (some n) files = files.take n.toNat := by
    simp [capMaxRuns, pySliceTo, hne, h0]
  refine ⟨heq, ?_⟩
  rw [heq, List.length_take]
  calc ((min n.toNat files.length : Nat) : Int)
      ≤ (n.toNat : Int) := by exact_mod_cast Nat.min_le_left _ _
    _ = n := Int.toNat_of_nonneg h0

/-- C8 witness: max-runs 1 keeps only the first of two files. -/
theorem C8_witness :
    capMaxRuns (some 1) ([("a", []), ("b", [])] : List (String × List String)) =
      ([("a", []), ("b", [])] : List (String × List String)).take (1 : Int).toNat ∧
    ((capMaxRuns (some 1)
      ([("a", []), ("b", [])] : List (String × List String))).length : Int) ≤ 1 :=
  C8_positive_cap 1 (by decide) [("a", []), ("b", [])]

/-- C9: each (run, metric) pair of the filtered table appears exactly
once among the groupby keys (membership characterization and no
duplicates), every chart is saved under the output directory with the
name run underscore metric-with-colons-replaced dot png, and the
naming is a deterministic function of run and metric (shown on a
concrete metric containing colons). -/
theorem C9_one_chart_per_pair (df : List Row) (outdir : String) :
    (∀ run metric, (run, metric) ∈ runMetricPairs df ↔
      ∃ r ∈ df, r.run = run ∧ r.metric = metric) ∧
    (runMetricPairs df).Nodup ∧
    savefigPaths outdir df =
      (runMetricPairs df).map (fun p => outdir ++ "/" ++ chartFileName p.1 p.2) ∧
    (∀ run metric, chartFileName run metric =
      run ++ "_" ++ pyReplaceColon metric ++ ".png") ∧
    chartFileName "run1" "a:b:c" = "run1_a_b_c.png" := by
  refine ⟨?_, List.nodup_dedup _, rfl, fun run metric => rfl, rfl⟩
  intro run metric
  simp [runMetricPairs, List.mem_dedup, List.mem_map, Prod.ext_iff]

/-- C9 witness: the theorem applied to a concrete table. -/
theorem C9_witness :
    chartFileName "run1" "a:b:c" = "run1_a_b_c.png" :=
  (C9_one_chart_per_pair [] "figs").2.2.2.2

theorem capMaxRuns_nil {α : Type} (n : Option Int) :
    capMaxRuns n ([] : List α) = [] := by
  rcases n with _ | k
  · rfl
  · simp [capMaxRuns, pySliceTo]

theorem mem_capMaxRuns {α : Type} {n : Option Int} {files : List α} {x : α}
    (h : x ∈ capMaxRuns n files) : x ∈ files := by
  rcases n with _ | k
  · exact h
  · simp only [capMaxRuns, pySliceTo] at h
    split at h
    · exact h
    · split at h
      · exact List.take_subset _ _ h
      · exact List.take_subset _ _ h

theorem parseAll_all_nil :
    ∀ l : List (String × List String),
      (∀ f ∈ l, parse_vec f.1 f.2 = Except.ok []) →
      parseAll l = Except.ok (l.map fun _ => ([] : List Row)) := by
  intro l h
  induction l with
  | nil => rfl
  | cons f fs ih =>
    have hf : parse_vec f.1 f.2 = Except.ok [] := h f (by simp)
    have ih2 := ih (fun g hg => h g (by simp [hg]))
    simp [parseAll, hf, ih2, Except.map]

/-- C3: with zero input files, or with every input file parsing to
zero rows, runMain stops with an error (the pd.concat ValueError on an
empty iterable, or the SystemExit message for an empty table) before
any filtering or chart generation; and when parsing succeeds with a
nonempty table but no row matches any pattern, runMain stops with the
no-match SystemExit message.  Both model a nonzero exit status. -/
theorem C3_exit_on_empty_or_no_match (cfg : Config) (outdir : String)
    (files : List (String × List String)) :
    ((files = [] ∨ ∀ f ∈ files, parse_vec f.1 f.2 = Except.ok []) →
      ∃ msg, runMain cfg outdir files = Except.error msg) ∧
    (∀ dfs : List (List Row),
      parseAll (capMaxRuns cfg.maxRuns files) = Except.ok dfs →
      dfs.flatten ≠ [] →
      (∀ row ∈ dfs.flatten, ∀ p ∈ cfg.metrics,
        reSearch (reCompile p.data) row.metric = false) →
      runMain cfg outdir files = Except.error (msgNoMatch cfg.metrics)) := by
  constructor
  · intro h
    rcases h with h | h
    · subst h
      have hc : capMaxRuns cfg.maxRuns ([] : List (String × List String)) = [] :=
        capMaxRuns_nil _
      refine ⟨"ValueError: No objects to concatenate", ?_⟩
      simp [runMain, hc, parseAll, pdConcat]
    · have hall : ∀ f ∈ capMaxRuns cfg.maxRuns files, parse_vec f.1 f.2 = Except.ok [] :=
        fun f hf => h f (mem_capMaxRuns hf)
      have hpa := parseAll_all_nil _ hall
      cases hcap : capMaxRuns cfg.maxRuns files with
      | nil =>
        rw [hcap] at hpa
        refine ⟨"ValueError: No objects to concatenate", ?_⟩
        simp [runMain, hcap, parseAll, pdConcat]
      | cons f fs =>
        rw [hcap] at hpa
        refine ⟨msgNoData, ?_⟩
        simp [runMain, hcap, hpa, pdConcat, List.flatten]
  · intro dfs hpa hne hnomatch
    have hfilter : filterMetrics (cfg.metrics.map fun e => reCompile e.data)
        dfs.flatten = [] := by
      unfold filterMetrics
      rw [List.filter_eq_nil_iff]
      intro row hrow
      simp only [metricMatches, List.any_eq_true, List.mem_map, not_exists, not_and]
      rintro p ⟨s, hsmem, rfl⟩ hsearch
      rw [hnomatch row hrow s hsmem] at hsearch
      cases hsearch
    rcases dfs with _ | ⟨d, ds⟩
    · simp at hne
    · have hne2 : d ++ ds.flatten ≠ [] := by simpa using hne
      have hcond : ¬(d = [] ∧ ∀ l ∈ ds, l = []) := by
        rintro ⟨h1, h2⟩
        exact hne2 (by simp [h1, List.flatten_eq_nil_iff.mpr h2])
      have hfilter2 : filterMetrics (cfg.metrics.map fun e => reCompile e.data)
          (d ++ ds.flatten) = [] := by simpa using hfilter
      simp [runMain, hpa, pdConcat, hcond, hfilter2]

/-- C3 witness: the two exit paths at concrete inputs: no files at
all, and one file whose rows match no pattern. -/
theorem C3_witness :
    (∃ msg, runMain ⟨["x"], none⟩ "figs" [] = Except.error msg) ∧
    runMain ⟨["zzz"], none⟩ "figs" [("r", ["vector 1 modA met ETV", "1 0 3 4"])] =
      Except.error (msgNoMatch ["zzz"]) :=
  ⟨(C3_exit_on_empty_or_no_match ⟨["x"], none⟩ "figs" []).1 (Or.inl rfl),
   (C3_exit_on_empty_or_no_match ⟨["zzz"], none⟩ "figs"
      [("r", ["vector 1 modA met ETV", "1 0 3 4"])]).2
     [[⟨(3 : Rat) + (0 : Rat) / (10 : Rat) ^ 0, (4 : Rat) + (0 : Rat) / (10 : Rat) ^ 0,
        "r", "modA", "met"⟩]]
     rfl (by simp)
     (by
       rintro row hrow p hp
       simp at hrow hp
       subst hrow
       subst hp
       rfl)⟩

